import Mathlib

/-!
Shallow embedding of the operator-console core of the binance-rsi trading-bot
dashboard (React frontend): the configuration load/normalize/save round trip
(`ConfigForm.jsx`), the status-polling loop with durable cache
(`StatusDisplay`, second component in `main.jsx`), and the start/stop fleet
controls (`App` in `src/unnamed/part_000`, `BotControls.jsx`).

Strings are modelled as `List Char`; JavaScript runtime values flowing through
the form are modelled by `JSVal` (numbers as `ℚ`; JSON numbers and the decimal
literals the form inputs produce carry no `NaN`, which only ever arises here as
the result of a failed coercion and is represented by `Option.none` of
`jsToNumber`).
-/

/-- Shorthand: the character list of a string literal. -/
def str (s : String) : List Char := s.data

/-- A JavaScript value as it occurs in the config data flow: a (non-NaN)
number, a string, a boolean, `null` or `undefined`. -/
inductive JSVal where
  | vnum (q : ℚ)
  | vstr (s : List Char)
  | vbool (b : Bool)
  | vnull
  | vundefined
deriving DecidableEq, Repr

/-- ASCII digit test. -/
def isDigitCh (c : Char) : Bool := '0' ≤ c && c ≤ '9'

/-- Numeric value of a digit list, most significant first. -/
def natOfDigits (l : List Char) : ℕ :=
  l.foldl (fun a c => 10 * a + (c.toNat - '0'.toNat)) 0

/-- Whitespace as trimmed by `String.prototype.trim` / skipped by `Number`
(ASCII subset; the symbol tickers and numeric literals of this form are
ASCII). -/
def wsChar (c : Char) : Bool := c = ' ' || c = '\t' || c = '\n' || c = '\r'

/-- Drop trailing whitespace (structural right-trim). -/
def rdropL : List Char → List Char
  | [] => []
  | a :: t =>
    match rdropL t with
    | [] => if wsChar a then [] else [a]
    | r => a :: r

/-- JavaScript `s.trim()`: drop leading and trailing whitespace. -/
def trimL (l : List Char) : List Char := rdropL (l.dropWhile wsChar)

/-- Value of a decimal literal `ip.fp`. -/
def decNum (ip fp : List Char) : ℚ :=
  (natOfDigits ip : ℚ) + (natOfDigits fp : ℚ) / (10 ^ fp.length)

/-- JavaScript `Number()` applied to a string, for optional-sign decimal
literals (`none` is `NaN`).  The whitespace-trimmed empty string converts to
`0`; other convertible spellings (hex, exponent, `Infinity`) do not occur in
this application's value flow and convert to `NaN` here. -/
def strToNum (s : List Char) : Option ℚ :=
  let t := trimL s
  if t = [] then some 0
  else
    let (neg, u) : Bool × List Char :=
      match t with
      | '-' :: r => (true, r)
      | '+' :: r => (false, r)
      | _ => (false, t)
    let ip := u.takeWhile isDigitCh
    let rest := u.drop ip.length
    match rest with
    | [] => if ip = [] then none else some ((if neg then -1 else 1) * natOfDigits ip)
    | '.' :: fp =>
      if fp.all isDigitCh && (!ip.isEmpty || !fp.isEmpty) then
        some ((if neg then -1 else 1) * decNum ip fp)
      else none
    | _ => none

/-- JavaScript `Number()` on a `JSVal` (`none` is `NaN`). -/
def jsToNumber : JSVal → Option ℚ
  | .vnum q => some q
  | .vstr s => strToNum s
  | .vbool b => some (if b then 1 else 0)
  | .vnull => some 0
  | .vundefined => none

/-- JavaScript truthiness of a string: nonempty. -/
def truthyStr (s : List Char) : Bool := !s.isEmpty

/-- `parseValue` of `ConfigForm.jsx` (lines 25-52): empty/null/undefined falls
back to the default; the bare `'-'` is kept as the string `'-'` for
`stopLossUSDT` and `rsiThresholdDown`; any value `Number()` can coerce is
returned as that number (the `console.warn` domain checks in the source only
log, they do not alter the result); anything else falls back to the
default. -/
def parseValue (value : JSVal) (defaultValue : JSVal) (name : String) : JSVal :=
  if value = .vstr [] ∨ value = .vnull ∨ value = .vundefined then defaultValue
  else if (name = "stopLossUSDT" ∨ name = "rsiThresholdDown") ∧ value = .vstr ['-'] then
    .vstr ['-']
  else
    match jsToNumber value with
    | some q => .vnum q
    | none => defaultValue

/-- The flat editable form state of `ConfigForm.jsx`.  The string-typed fields
are `List Char`; the eleven numeric fields hold whatever JavaScript value the
load/edit flow put there (number, in-progress edit string, or empty
string). -/
structure LocalConfig where
  apiKey : List Char
  apiSecret : List Char
  mode : List Char
  symbolsToTrade : List Char
  rsiInterval : List Char
  rsiPeriod : JSVal
  rsiThresholdUp : JSVal
  rsiThresholdDown : JSVal
  rsiEntryLevelLow : JSVal
  volumeSmaPeriod : JSVal
  volumeFactor : JSVal
  positionSizeUSDT : JSVal
  stopLossUSDT : JSVal
  takeProfitUSDT : JSVal
  cycleSleepSeconds : JSVal
  orderTimeoutSeconds : JSVal
  active : Bool
deriving DecidableEq, Repr

/-- `initialConfig` of `ConfigForm.jsx` (lines 4-22): the hardcoded
defaults. -/
def initialConfig : LocalConfig where
  apiKey := []
  apiSecret := []
  mode := str "paper"
  symbolsToTrade := []
  rsiInterval := str "5m"
  rsiPeriod := .vnum 14
  rsiThresholdUp := .vnum 8
  rsiThresholdDown := .vnum (-8)
  rsiEntryLevelLow := .vnum 25
  volumeSmaPeriod := .vnum 20
  volumeFactor := .vnum (3/2)
  positionSizeUSDT := .vnum 50
  stopLossUSDT := .vnum 20
  takeProfitUSDT := .vnum 30
  cycleSleepSeconds := .vnum 0
  orderTimeoutSeconds := .vnum 60
  active := false

/-- The backend's `/api/config` response body as `ConfigForm.jsx` reads it.
Each field is the value of the optional-chained access
(`backendConfig.SECTION?.field`); `none` for the string-typed fields covers a
missing section, a missing field and `null` (all falsy and non-string).  The
numeric parameters carry the full `JSVal` range a JSON body can produce
(`.vundefined` when the section or field is absent). -/
structure RemoteConfig where
  api_key : Option (List Char)
  api_secret : Option (List Char)
  mode : Option (List Char)
  symbols_to_trade : Option (List Char)
  rsi_interval : Option (List Char)
  rsi_period : JSVal
  rsi_threshold_up : JSVal
  rsi_threshold_down : JSVal
  rsi_entry_level_low : JSVal
  volume_sma_period : JSVal
  volume_factor : JSVal
  position_size_usdt : JSVal
  stop_loss_usdt : JSVal
  take_profit_usdt : JSVal
  cycle_sleep_seconds : JSVal
  order_timeout_seconds : JSVal
deriving DecidableEq, Repr

/-- JavaScript `x || d` for a string-typed remote value: the empty string,
`null` and `undefined` are falsy. -/
def strOr (v : Option (List Char)) (d : List Char) : List Char :=
  match v with
  | some s => if s.isEmpty then d else s
  | none => d

/-- The successful branch of `fetchConfig` in `ConfigForm.jsx` (lines 74-94):
project the nested backend body onto the flat form state, each numeric field
through `parseValue` with its named default.  `activeAtMount` is the `active`
flag the effect closure captured at mount (`config.active` on line 91 reads
the first render's state). -/
def fetchConfigOk (rc : RemoteConfig) (activeAtMount : Bool) : LocalConfig where
  apiKey := strOr rc.api_key []
  apiSecret := strOr rc.api_secret []
  mode := strOr rc.mode (str "paper")
  symbolsToTrade := strOr rc.symbols_to_trade []
  rsiInterval := strOr rc.rsi_interval (str "5m")
  rsiPeriod := parseValue rc.rsi_period initialConfig.rsiPeriod "rsiPeriod"
  rsiThresholdUp := parseValue rc.rsi_threshold_up initialConfig.rsiThresholdUp "rsiThresholdUp"
  rsiThresholdDown :=
    parseValue rc.rsi_threshold_down initialConfig.rsiThresholdDown "rsiThresholdDown"
  rsiEntryLevelLow :=
    parseValue rc.rsi_entry_level_low initialConfig.rsiEntryLevelLow "rsiEntryLevelLow"
  volumeSmaPeriod := parseValue rc.volume_sma_period initialConfig.volumeSmaPeriod "volumeSmaPeriod"
  volumeFactor := parseValue rc.volume_factor initialConfig.volumeFactor "volumeFactor"
  positionSizeUSDT :=
    parseValue rc.position_size_usdt initialConfig.positionSizeUSDT "positionSizeUSDT"
  stopLossUSDT := parseValue rc.stop_loss_usdt initialConfig.stopLossUSDT "stopLossUSDT"
  takeProfitUSDT := parseValue rc.take_profit_usdt initialConfig.takeProfitUSDT "takeProfitUSDT"
  cycleSleepSeconds :=
    parseValue rc.cycle_sleep_seconds initialConfig.cycleSleepSeconds "cycleSleepSeconds"
  orderTimeoutSeconds :=
    parseValue rc.order_timeout_seconds initialConfig.orderTimeoutSeconds "orderTimeoutSeconds"
  active := activeAtMount

/-- The two field families `handleChange` of `ConfigForm.jsx` treats specially
(lines 116-122). -/
def numericTextFields : List String :=
  ["rsiThresholdUp", "rsiThresholdDown", "rsiEntryLevelLow", "volumeFactor",
   "positionSizeUSDT", "stopLossUSDT", "takeProfitUSDT"]

/-- Fields edited through `type="number"` inputs and coerced to integers on
change. -/
def integerNumberFields : List String :=
  ["rsiPeriod", "volumeSmaPeriod", "cycleSleepSeconds", "orderTimeoutSeconds"]

/-- Read one of the eleven numeric form fields by its input name (an unknown
name reads as `undefined`, as in JavaScript). -/
def getNumField (c : LocalConfig) : String → JSVal
  | "rsiPeriod" => c.rsiPeriod
  | "rsiThresholdUp" => c.rsiThresholdUp
  | "rsiThresholdDown" => c.rsiThresholdDown
  | "rsiEntryLevelLow" => c.rsiEntryLevelLow
  | "volumeSmaPeriod" => c.volumeSmaPeriod
  | "volumeFactor" => c.volumeFactor
  | "positionSizeUSDT" => c.positionSizeUSDT
  | "stopLossUSDT" => c.stopLossUSDT
  | "takeProfitUSDT" => c.takeProfitUSDT
  | "cycleSleepSeconds" => c.cycleSleepSeconds
  | "orderTimeoutSeconds" => c.orderTimeoutSeconds
  | _ => .vundefined

/-- Write one of the eleven numeric form fields by its input name. -/
def setNumField (c : LocalConfig) (name : String) (v : JSVal) : LocalConfig :=
  match name with
  | "rsiPeriod" => { c with rsiPeriod := v }
  | "rsiThresholdUp" => { c with rsiThresholdUp := v }
  | "rsiThresholdDown" => { c with rsiThresholdDown := v }
  | "rsiEntryLevelLow" => { c with rsiEntryLevelLow := v }
  | "volumeSmaPeriod" => { c with volumeSmaPeriod := v }
  | "volumeFactor" => { c with volumeFactor := v }
  | "positionSizeUSDT" => { c with positionSizeUSDT := v }
  | "stopLossUSDT" => { c with stopLossUSDT := v }
  | "takeProfitUSDT" => { c with takeProfitUSDT := v }
  | "cycleSleepSeconds" => { c with cycleSleepSeconds := v }
  | "orderTimeoutSeconds" => { c with orderTimeoutSeconds := v }
  | _ => c

/-- The regular expression `^-?\d*\.?\d*$` of `isValidNumericString`
(`ConfigForm.jsx` line 132): optional leading minus, digits, at most one
decimal point, digits. -/
def numRegex (s : List Char) : Bool :=
  let t := match s with
    | '-' :: r => r
    | _ => s
  match t.dropWhile isDigitCh with
  | [] => true
  | '.' :: r => r.all isDigitCh
  | _ => false

/-- `isValidNumericString` of `handleChange` (`ConfigForm.jsx` lines 127-133):
the empty string is valid; a bare `'-'` is valid for the two fields that may
be negative; otherwise the regex plus the redundant dot/minus counts. -/
def isValidNumericString (name : String) (val : List Char) : Bool :=
  if val = [] then true
  else if (name = "rsiThresholdDown" ∨ name = "stopLossUSDT") ∧ val = ['-'] then true
  else
    numRegex val && val.count '.' ≤ 1 &&
      val.count '-' ≤ (if val.head? = some '-' then 1 else 0)

/-- The integer-field branch of `handleChange` (`ConfigForm.jsx` lines
142-151): the empty string is stored as-is; `Number(value)` is stored when it
is an integer, otherwise the previous value is kept — except that for
`cycleSleepSeconds` any nonzero number below 5 is stored unconditionally (the
`num !== 0 && num < 5` override on line 148; a `NaN` fails `num < 5` and does
not trigger it). -/
def intFieldValue (name : String) (prev : JSVal) (value : List Char) : JSVal :=
  if value = [] then .vstr []
  else
    match strToNum value with
    | some q =>
      let p := if q.den = 1 then JSVal.vnum q else prev
      if name = "cycleSleepSeconds" ∧ q ≠ 0 ∧ q < 5 then .vnum q else p
    | none => prev

/-- `handleChange` of `ConfigForm.jsx` (lines 111-158) for a non-checkbox
input: numeric text fields keep the raw string when it passes
`isValidNumericString` and revert to the previous value otherwise; integer
fields go through `intFieldValue`; the remaining text inputs store the raw
value. -/
def handleChange (c : LocalConfig) (name : String) (value : List Char) : LocalConfig :=
  if numericTextFields.contains name then
    setNumField c name
      (if isValidNumericString name value then .vstr value else getNumField c name)
  else if integerNumberFields.contains name then
    setNumField c name (intFieldValue name (getNumField c name) value)
  else
    match name with
    | "apiKey" => { c with apiKey := value }
    | "apiSecret" => { c with apiSecret := value }
    | "mode" => { c with mode := value }
    | "rsiInterval" => { c with rsiInterval := value }
    | "symbolsToTrade" => { c with symbolsToTrade := value }
    | _ => c

/-- The checkbox branch of `handleChange`. -/
def handleChangeActive (c : LocalConfig) (checked : Bool) : LocalConfig :=
  { c with active := checked }

/-- ASCII `toUpperCase` as JavaScript applies it to the symbol tickers. -/
def jsToUpper (c : Char) : Char :=
  if 'a' ≤ c ∧ c ≤ 'z' then Char.ofNat (c.toNat - 32) else c

/-- Split on `','` exactly as `String.prototype.split(',')`: first piece and
the remaining pieces. -/
def splitCommaAux : List Char → List Char × List (List Char)
  | [] => ([], [])
  | c :: r =>
    let (p, ps) := splitCommaAux r
    if c = ',' then ([], p :: ps) else (c :: p, ps)

/-- JavaScript `s.split(',')` (always at least one piece). -/
def splitComma (l : List Char) : List (List Char) :=
  (splitCommaAux l).1 :: (splitCommaAux l).2

/-- JavaScript `Array.prototype.join(',')`. -/
def joinC : List (List Char) → List Char
  | [] => []
  | [t] => t
  | t :: ts => t ++ ',' :: joinC ts

/-- The symbol-list cleaning of `handleSubmit` (`ConfigForm.jsx` lines
166-168): split on commas, trim and upper-case each piece, drop empty pieces,
rejoin. -/
def cleanTok (t : List Char) : List Char := (trimL t).map jsToUpper

def cleanSymbols (s : List Char) : List Char :=
  joinC (((splitComma s).map cleanTok).filter truthyStr)

/-- The payload `handleSubmit` assembles and POSTs (`ConfigForm.jsx` lines
171-188); it carries no `active` field. -/
structure SendConfig where
  apiKey : List Char
  apiSecret : List Char
  mode : List Char
  symbolsToTrade : List Char
  rsiInterval : List Char
  rsiPeriod : JSVal
  rsiThresholdUp : JSVal
  rsiThresholdDown : JSVal
  rsiEntryLevelLow : JSVal
  volumeSmaPeriod : JSVal
  volumeFactor : JSVal
  positionSizeUSDT : JSVal
  stopLossUSDT : JSVal
  takeProfitUSDT : JSVal
  cycleSleepSeconds : JSVal
  orderTimeoutSeconds : JSVal
deriving DecidableEq, Repr

/-- `configToSend` of `handleSubmit`: the cleaned symbol string plus every
numeric field coerced a second time through `parseValue` with its
`initialConfig` default. -/
def configToSend (c : LocalConfig) : SendConfig where
  apiKey := c.apiKey
  apiSecret := c.apiSecret
  mode := c.mode
  symbolsToTrade := cleanSymbols c.symbolsToTrade
  rsiInterval := c.rsiInterval
  rsiPeriod := parseValue c.rsiPeriod initialConfig.rsiPeriod "rsiPeriod"
  rsiThresholdUp := parseValue c.rsiThresholdUp initialConfig.rsiThresholdUp "rsiThresholdUp"
  rsiThresholdDown :=
    parseValue c.rsiThresholdDown initialConfig.rsiThresholdDown "rsiThresholdDown"
  rsiEntryLevelLow :=
    parseValue c.rsiEntryLevelLow initialConfig.rsiEntryLevelLow "rsiEntryLevelLow"
  volumeSmaPeriod := parseValue c.volumeSmaPeriod initialConfig.volumeSmaPeriod "volumeSmaPeriod"
  volumeFactor := parseValue c.volumeFactor initialConfig.volumeFactor "volumeFactor"
  positionSizeUSDT :=
    parseValue c.positionSizeUSDT initialConfig.positionSizeUSDT "positionSizeUSDT"
  stopLossUSDT := parseValue c.stopLossUSDT initialConfig.stopLossUSDT "stopLossUSDT"
  takeProfitUSDT := parseValue c.takeProfitUSDT initialConfig.takeProfitUSDT "takeProfitUSDT"
  cycleSleepSeconds :=
    parseValue c.cycleSleepSeconds initialConfig.cycleSleepSeconds "cycleSleepSeconds"
  orderTimeoutSeconds :=
    parseValue c.orderTimeoutSeconds initialConfig.orderTimeoutSeconds "orderTimeoutSeconds"

/-- The `setConfig` update `handleSubmit` performs regardless of network
outcome (`ConfigForm.jsx` lines 191-196): spread the payload over the previous
state, keep `active`. -/
def applySubmitState (c : LocalConfig) : LocalConfig :=
  let p := configToSend c
  { apiKey := p.apiKey, apiSecret := p.apiSecret, mode := p.mode,
    symbolsToTrade := p.symbolsToTrade, rsiInterval := p.rsiInterval,
    rsiPeriod := p.rsiPeriod, rsiThresholdUp := p.rsiThresholdUp,
    rsiThresholdDown := p.rsiThresholdDown, rsiEntryLevelLow := p.rsiEntryLevelLow,
    volumeSmaPeriod := p.volumeSmaPeriod, volumeFactor := p.volumeFactor,
    positionSizeUSDT := p.positionSizeUSDT, stopLossUSDT := p.stopLossUSDT,
    takeProfitUSDT := p.takeProfitUSDT, cycleSleepSeconds := p.cycleSleepSeconds,
    orderTimeoutSeconds := p.orderTimeoutSeconds, active := c.active }

/-- One per-symbol entry of the `/api/status` body as the status table reads
it (`main.jsx`, second `StatusDisplay`, lines 244-274). -/
structure SymbolStatus where
  symbol : List Char
  state : Option (List Char)
  pnl : Option ℚ
  cumulative_pnl : Option ℚ
  pending_entry_order_id : Option (List Char)
  pending_exit_order_id : Option (List Char)
  last_error : Option (List Char)
deriving DecidableEq, Repr

/-- The observable state of the polling `StatusDisplay` (second component in
`main.jsx`): the `statuses` React state, the `localStorage` cache slot
(`botStatusesCache`; `none` when the slot is absent), and the `error`
message. -/
structure PollerState where
  statuses : List SymbolStatus
  cache : Option (List SymbolStatus)
  error : Option String
deriving DecidableEq, Repr

/-- The error message the poll catch handler sets (`main.jsx` line 189). -/
def pollErrMsg : String :=
  "Bot apagado o API no disponible. Mostrando últimos datos conocidos."

/-- Outcome of one `/api/status` poll attempt.  `fail` covers everything that
throws into the catch handler: network failure, a non-2xx response and a 2xx
body that is not JSON.  `ok` is a parsed 2xx JSON body carrying the
`bots_running` value and, when the body is truthy and `data.statuses` is an
array, that array (`none` otherwise — the malformed case of line 174). -/
inductive PollOutcome where
  | fail
  | ok (bots_running : JSVal) (statuses : Option (List SymbolStatus))
deriving DecidableEq, Repr

/-- `fetchData` of the polling `StatusDisplay` (`main.jsx` lines 150-192).
`initStatuses` is the `statuses` value the effect closure captured at mount
(the `useEffect` has an empty dependency list, so the `statuses.length === 0`
read on line 178 always sees the mount-time value); the setters act on the
current state `s`.  On success with a valid array the snapshot and the cache
slot are replaced and the error cleared; on a 2xx body without a valid
`statuses` array the cache is untouched, the snapshot is cleared only when the
mount-time snapshot was empty, and the error is cleared; on failure only the
error message is set. -/
def fetchData (initStatuses : List SymbolStatus) (s : PollerState) :
    PollOutcome → PollerState
  | .fail => { s with error := some pollErrMsg }
  | .ok _ (some sts) => { statuses := sts, cache := some sts, error := none }
  | .ok _ none =>
    let s1 := if initStatuses.length = 0 then { s with statuses := [] } else s
    { s1 with error := none }

/-- The spec's StatusPoller state classification (§4.2) over the component's
observable state: no snapshot at all, a snapshot with a clear error flag, or a
snapshot kept while the most recent attempt failed. -/
inductive PollerMode where
  | NoData
  | Fresh
  | Stale
deriving DecidableEq, Repr

/-- Classify a poller state. -/
def pollerMode (s : PollerState) : PollerMode :=
  if s.statuses = [] then .NoData
  else if s.error = none then .Fresh
  else .Stale

/-- The state after each tick of a sequence of poll outcomes. -/
def pollerTrace (initStatuses : List SymbolStatus) (s : PollerState) :
    List PollOutcome → List PollerState
  | [] => []
  | o :: os =>
    let s1 := fetchData initStatuses s o
    s1 :: pollerTrace initStatuses s1 os

/-- The component state at mount: `statuses` rehydrated from the durable
cache (already filtered to a list of objects by the `useState` initializer),
no error. -/
def mountPoller (initStatuses : List SymbolStatus)
    (slot : Option (List SymbolStatus)) : PollerState where
  statuses := initStatuses
  cache := slot
  error := none

/-- A parsed JSON command-response body (only `error` and `message` are ever
read). -/
structure RespBody where
  error : Option String
  message : Option String
deriving DecidableEq, Repr

/-- Outcome of one command POST (`/api/start_bots`, `/api/shutdown`): the
request itself failed, or a response arrived with an HTTP status and a body
that either parses as JSON (`some`) or does not (`none`, in which case
`await response.json()` throws). -/
inductive HttpOutcome where
  | netFail
  | resp (status : ℕ) (body : Option RespBody)
deriving DecidableEq, Repr

/-- `response.ok`: HTTP status in the 2xx range. -/
def respOk (status : ℕ) : Bool := 200 ≤ status && status ≤ 299

/-- `handleStartBots` of `App` (`src/unnamed/part_000` lines 104-120): read
the JSON body first (a non-JSON body throws), then throw on a non-ok status;
the catch handler sets the belief to `false` and returns `false`; the success
path sets it to `true` and returns `true`.  Result: (value passed to
`setBotsRunning`, returned success flag). -/
def handleStartBots : HttpOutcome → JSVal × Bool
  | .netFail => (.vbool false, false)
  | .resp _ none => (.vbool false, false)
  | .resp status (some _) =>
    if respOk status then (.vbool true, true) else (.vbool false, false)

/-- `handleShutdown` of `App` (`src/unnamed/part_000` lines 122-140): read the
JSON body first (a non-JSON body throws into the catch, which sets the belief
to `false` and returns `false`); a non-ok status is only logged; every
non-throwing path sets the belief to `false` and returns `true`. -/
def handleShutdown : HttpOutcome → JSVal × Bool
  | .netFail => (.vbool false, false)
  | .resp _ none => (.vbool false, false)
  | .resp _ (some _) => (.vbool false, true)

/-- Outcome of `fetchInitialData` in `App` (`src/unnamed/part_000` lines
13-64): the config fetch threw, returned non-ok or had a non-JSON body
(`configFail`); the config loaded but the status fetch threw or its body was
not JSON (`statusThrow`); the status response was non-ok (`statusNonOk`, only
warned about); or both loaded and the body carried `bots_running` as declared
by the backend interface (`some b`) or omitted it (`none`). -/
inductive InitOutcome where
  | configFail
  | statusThrow
  | statusNonOk
  | statusOk (bots_running : Option Bool)
deriving DecidableEq, Repr

/-- The `botsRunning` value `fetchInitialData` leaves behind: every failure
path calls `setBotsRunning(false)`; a successful status fetch stores the
body's `bots_running` value (JavaScript `undefined` when the field is
absent). -/
def fetchInitialBots : InitOutcome → JSVal
  | .configFail => .vbool false
  | .statusThrow => .vbool false
  | .statusNonOk => .vbool false
  | .statusOk (some b) => .vbool b
  | .statusOk none => .vundefined

/-- `useState(null)` — the fleet belief before the initial load. -/
def initialBotsRunning : JSVal := .vnull

/-- The session state the claims range over: the `botsRunning` belief owned by
`App` and the polling component's state. -/
structure AppState where
  botsRunning : JSVal
  poller : PollerState
deriving DecidableEq, Repr

/-- An event after mount: one poll tick of the status display, or one
completed start/shutdown command. -/
inductive AppEvent where
  | poll (o : PollOutcome)
  | start (o : HttpOutcome)
  | stop (o : HttpOutcome)
deriving DecidableEq, Repr

/-- One event step: a poll tick runs `fetchData` on the poller state only
(`fetchData` never calls `setBotsRunning`); a command outcome overwrites the
belief with the value its handler passes to `setBotsRunning`. -/
def stepApp (initStatuses : List SymbolStatus) (s : AppState) : AppEvent → AppState
  | .poll o => { s with poller := fetchData initStatuses s.poller o }
  | .start o => { s with botsRunning := (handleStartBots o).1 }
  | .stop o => { s with botsRunning := (handleShutdown o).1 }

/-- `startDisabled` of `BotControls.jsx` line 38:
`botsRunning === null || botsRunning === true || isActionPending`. -/
def startDisabled (botsRunning : JSVal) (isActionPending : Bool) : Bool :=
  botsRunning = JSVal.vnull || botsRunning = JSVal.vbool true || isActionPending

/-- `shutdownDisabled` of `BotControls.jsx` line 39. -/
def shutdownDisabled (botsRunning : JSVal) (isActionPending : Bool) : Bool :=
  botsRunning = JSVal.vnull || botsRunning = JSVal.vbool false || isActionPending

theorem charToNat_injective {c d : Char} (h : c.toNat = d.toNat) : c = d := by
  have hc := Char.ofNat_toNat c
  rw [h, Char.ofNat_toNat] at hc
  exact hc.symm

theorem char_toNat_ofNat {n : ℕ} (hv : n.isValidChar) : (Char.ofNat n).toNat = n := by
  rw [Char.ofNat, dif_pos hv]
  rfl

theorem lower_range {c : Char} (h : 'a' ≤ c ∧ c ≤ 'z') : 97 ≤ c.toNat ∧ c.toNat ≤ 122 := by
  obtain ⟨h1, h2⟩ := h
  rw [Char.le_def] at h1 h2
  exact ⟨h1, h2⟩

theorem up_toNat {c : Char} (h : 'a' ≤ c ∧ c ≤ 'z') :
    (jsToUpper c).toNat = c.toNat - 32 := by
  have hr := lower_range h
  rw [jsToUpper, if_pos h]
  exact char_toNat_ofNat (Or.inl (by omega))

theorem ws_toNat {c : Char} (h : wsChar c = true) :
    c.toNat = 32 ∨ c.toNat = 9 ∨ c.toNat = 10 ∨ c.toNat = 13 := by
  simp only [wsChar, Bool.or_eq_true, decide_eq_true_eq] at h
  rcases h with ((h | h) | h) | h <;> rw [h] <;> simp [Char.toNat]

theorem up_ws (c : Char) : wsChar (jsToUpper c) = wsChar c := by
  by_cases h : 'a' ≤ c ∧ c ≤ 'z'
  · have hr := lower_range h
    have ht := up_toNat h
    have h1 : wsChar (jsToUpper c) = false := by
      by_contra hb
      rw [Bool.not_eq_false] at hb
      have := ws_toNat hb
      omega
    have h2 : wsChar c = false := by
      by_contra hb
      rw [Bool.not_eq_false] at hb
      have := ws_toNat hb
      omega
    rw [h1, h2]
  · rw [jsToUpper, if_neg h]

theorem up_comma {c : Char} (h : jsToUpper c = ',') : c = ',' := by
  by_cases hc : 'a' ≤ c ∧ c ≤ 'z'
  · have hr := lower_range hc
    have ht := up_toNat hc
    have h44 : (',' : Char).toNat = 44 := rfl
    rw [h, h44] at ht
    omega
  · rwa [jsToUpper, if_neg hc] at h

theorem up_idem (c : Char) : jsToUpper (jsToUpper c) = jsToUpper c := by
  by_cases h : 'a' ≤ c ∧ c ≤ 'z'
  · have hr := lower_range h
    have ht := up_toNat h
    have hnot : ¬('a' ≤ jsToUpper c ∧ jsToUpper c ≤ 'z') := by
      intro hcontra
      have := lower_range hcontra
      omega
    rw [jsToUpper, if_neg hnot]
  · have hc : jsToUpper c = c := by rw [jsToUpper, if_neg h]
    rw [hc]
    exact hc

theorem dropWhile_dw {α : Type} (p : α → Bool) (l : List α) :
    (l.dropWhile p).dropWhile p = l.dropWhile p := by
  induction l with
  | nil => rfl
  | cons a t ih =>
    by_cases h : p a = true
    · simp [List.dropWhile_cons, h, ih]
    · simp [List.dropWhile_cons, h]

theorem mem_dropWhile {α : Type} {p : α → Bool} {l : List α} {c : α}
    (h : c ∈ l.dropWhile p) : c ∈ l := by
  induction l with
  | nil => exact h
  | cons a t ih =>
    by_cases hp : p a = true
    · rw [List.dropWhile_cons, if_pos hp] at h
      exact List.mem_cons_of_mem a (ih h)
    · rwa [List.dropWhile_cons, if_neg hp] at h

theorem dropWhile_map_up (l : List Char) :
    (l.map jsToUpper).dropWhile wsChar = (l.dropWhile wsChar).map jsToUpper := by
  induction l with
  | nil => rfl
  | cons a t ih =>
    by_cases h : wsChar a = true
    · simp [List.dropWhile_cons, up_ws, h, ih]
    · simp [List.dropWhile_cons, up_ws, h]

theorem length_dropWhile_le {α : Type} (p : α → Bool) (l : List α) :
    (l.dropWhile p).length ≤ l.length := by
  induction l with
  | nil => simp
  | cons x xs ihx =>
    by_cases hx : p x = true
    · rw [List.dropWhile_cons, if_pos hx]
      exact le_trans ihx (by simp)
    · rw [List.dropWhile_cons, if_neg hx]

theorem rdropL_idem (l : List Char) : rdropL (rdropL l) = rdropL l := by
  induction l with
  | nil => rfl
  | cons a t ih =>
    cases hr : rdropL t with
    | nil =>
      by_cases hw : wsChar a = true
      · simp [rdropL, hr, hw]
      · simp [rdropL, hr, hw]
    | cons b r =>
      rw [hr] at ih
      have hstep : rdropL (a :: t) = a :: b :: r := by
        rw [rdropL, hr]
      rw [hstep, rdropL, ih]

theorem mem_rdropL {l : List Char} {c : Char} (h : c ∈ rdropL l) : c ∈ l := by
  induction l with
  | nil => exact h
  | cons a t ih =>
    cases hr : rdropL t with
    | nil =>
      rw [rdropL, hr] at h
      by_cases hw : wsChar a = true
      · rw [if_pos hw] at h
        exact absurd h (List.not_mem_nil c)
      · rw [if_neg hw] at h
        rw [List.mem_singleton] at h
        exact h ▸ List.mem_cons_self a t
    | cons b r =>
      rw [rdropL, hr] at h
      rcases List.mem_cons.mp h with h1 | h1
      · exact h1 ▸ List.mem_cons_self a t
      · exact List.mem_cons_of_mem a (ih (hr ▸ h1))

theorem dropWhile_rdropL {l : List Char} (h : l.dropWhile wsChar = l) :
    (rdropL l).dropWhile wsChar = rdropL l := by
  cases l with
  | nil => rfl
  | cons a t =>
    have hw : wsChar a = false := by
      by_contra hb
      rw [Bool.not_eq_false] at hb
      rw [List.dropWhile_cons, if_pos hb] at h
      have := congrArg List.length h
      have hle := length_dropWhile_le wsChar t
      simp at this
      omega
    cases hr : rdropL t with
    | nil =>
      rw [rdropL, hr]
      rw [if_neg (by simp [hw])]
      rw [List.dropWhile_cons, if_neg (by simp [hw])]
    | cons b r =>
      rw [rdropL, hr, List.dropWhile_cons, if_neg (by simp [hw])]

theorem rdropL_map_up (l : List Char) :
    rdropL (l.map jsToUpper) = (rdropL l).map jsToUpper := by
  induction l with
  | nil => rfl
  | cons a t ih =>
    cases hr : rdropL t with
    | nil =>
      rw [hr] at ih
      simp only [List.map_nil] at ih
      rw [List.map_cons, rdropL, ih, rdropL, hr, up_ws]
      by_cases hw : wsChar a = true
      · rw [if_pos hw, if_pos hw, List.map_nil]
      · rw [if_neg hw, if_neg hw, List.map_cons, List.map_nil]
    | cons b r =>
      rw [hr] at ih
      rw [List.map_cons, rdropL, ih, rdropL, hr]
      rfl

theorem trimL_idem (l : List Char) : trimL (trimL l) = trimL l := by
  rw [trimL, trimL, dropWhile_rdropL (dropWhile_dw wsChar l), rdropL_idem]

theorem trimL_map_up (l : List Char) :
    trimL (l.map jsToUpper) = (trimL l).map jsToUpper := by
  rw [trimL, trimL, dropWhile_map_up, rdropL_map_up]

theorem mem_trimL {l : List Char} {c : Char} (h : c ∈ trimL l) : c ∈ l :=
  mem_dropWhile (mem_rdropL h)

theorem map_up_idem (l : List Char) :
    (l.map jsToUpper).map jsToUpper = l.map jsToUpper := by
  rw [List.map_map]
  induction l with
  | nil => rfl
  | cons a t ih => simp [Function.comp, up_idem, ih]

theorem aux_no_comma {t : List Char} (h : ',' ∉ t) : splitCommaAux t = (t, []) := by
  induction t with
  | nil => rfl
  | cons c r ih =>
    have hc : c ≠ ',' := fun he => h (he ▸ List.mem_cons_self c r)
    have hr : ',' ∉ r := fun hm => h (List.mem_cons_of_mem c hm)
    rw [splitCommaAux, ih hr]
    simp [hc]

theorem aux_append {t : List Char} (h : ',' ∉ t) (r : List Char) :
    splitCommaAux (t ++ ',' :: r) = (t, (splitCommaAux r).1 :: (splitCommaAux r).2) := by
  induction t with
  | nil => simp [splitCommaAux]
  | cons c u ih =>
    have hc : c ≠ ',' := fun he => h (he ▸ List.mem_cons_self c u)
    have hu : ',' ∉ u := fun hm => h (List.mem_cons_of_mem c hm)
    rw [List.cons_append, splitCommaAux, ih hu]
    simp [hc]

theorem joinC_cons (t : List Char) {ts : List (List Char)} (h : ts ≠ []) :
    joinC (t :: ts) = t ++ ',' :: joinC ts := by
  cases ts with
  | nil => exact absurd rfl h
  | cons u us => rfl

theorem splitComma_joinC {ts : List (List Char)} (hne : ts ≠ [])
    (hcf : ∀ t ∈ ts, ',' ∉ t) : splitComma (joinC ts) = ts := by
  induction ts with
  | nil => exact absurd rfl hne
  | cons t us ih =>
    cases us with
    | nil =>
      have ht : ',' ∉ t := hcf t (List.mem_cons_self t [])
      rw [joinC, splitComma, aux_no_comma ht]
    | cons v vs =>
      have ht : ',' ∉ t := hcf t (List.mem_cons_self t (v :: vs))
      have hrest : ∀ u ∈ v :: vs, ',' ∉ u :=
        fun u hu => hcf u (List.mem_cons_of_mem t hu)
      rw [joinC_cons t (by simp), splitComma, aux_append ht]
      have := ih (by simp) hrest
      rw [splitComma] at this
      simp only [List.cons.injEq] at this ⊢
      exact ⟨trivial, this⟩

theorem sc_pieces (l : List Char) :
    ',' ∉ (splitCommaAux l).1 ∧ ∀ p ∈ (splitCommaAux l).2, ',' ∉ p := by
  induction l with
  | nil => simp [splitCommaAux]
  | cons c r ih =>
    rw [splitCommaAux]
    by_cases hc : c = ','
    · simp only [hc, if_true]
      refine ⟨by simp, ?_⟩
      intro p hp
      rcases List.mem_cons.mp hp with h1 | h1
      · exact h1 ▸ ih.1
      · exact ih.2 p h1
    · simp only [hc, if_false]
      refine ⟨?_, ih.2⟩
      intro hm
      rcases List.mem_cons.mp hm with h1 | h1
      · exact hc h1.symm
      · exact ih.1 h1

theorem map_eq_self {α : Type} {f : α → α} {l : List α} (h : ∀ a ∈ l, f a = a) :
    l.map f = l := by
  induction l with
  | nil => rfl
  | cons a t ih =>
    rw [List.map_cons, h a (List.mem_cons_self a t),
      ih fun b hb => h b (List.mem_cons_of_mem a hb)]

theorem cleanTok_idem (t : List Char) : cleanTok (cleanTok t) = cleanTok t := by
  rw [cleanTok, cleanTok, trimL_map_up, trimL_idem, map_up_idem]

theorem cleanTok_comma {t : List Char} (h : ',' ∉ t) : ',' ∉ cleanTok t := by
  intro hm
  obtain ⟨c, hc, he⟩ := List.mem_map.mp hm
  exact h (mem_trimL (up_comma he ▸ hc))

theorem cleanSymbols_idem (s : List Char) :
    cleanSymbols (cleanSymbols s) = cleanSymbols s := by
  by_cases hL : ((splitComma s).map cleanTok).filter truthyStr = []
  · have h0 : cleanSymbols s = [] := by rw [cleanSymbols, hL]; rfl
    rw [h0]
    rfl
  · have hmem : ∀ u ∈ ((splitComma s).map cleanTok).filter truthyStr, truthyStr u = true :=
      fun u hu => (List.mem_filter.mp hu).2
    have hcf : ∀ u ∈ ((splitComma s).map cleanTok).filter truthyStr, ',' ∉ u := by
      intro u hu
      obtain ⟨v, hv, hrw⟩ := List.mem_map.mp (List.mem_filter.mp hu).1
      have hvp : ',' ∉ v := by
        rcases List.mem_cons.mp hv with h2 | h2
        · exact h2 ▸ (sc_pieces s).1
        · exact (sc_pieces s).2 v h2
      exact hrw ▸ cleanTok_comma hvp
    have hfix : ∀ u ∈ ((splitComma s).map cleanTok).filter truthyStr, cleanTok u = u := by
      intro u hu
      obtain ⟨v, hv, hrw⟩ := List.mem_map.mp (List.mem_filter.mp hu).1
      exact hrw ▸ cleanTok_idem v
    conv_lhs => rw [cleanSymbols, cleanSymbols]
    rw [splitComma_joinC hL hcf, map_eq_self hfix, List.filter_eq_self.mpr hmem,
      cleanSymbols]

theorem parseValue_vnum (r q : ℚ) (nm : String) :
    parseValue (.vnum r) (.vnum q) nm = .vnum r := by
  rw [parseValue, if_neg (by simp), if_neg (by simp)]
  rfl

theorem parseValue_idem (v : JSVal) (q : ℚ) (nm : String) :
    parseValue (parseValue v (.vnum q) nm) (.vnum q) nm = parseValue v (.vnum q) nm := by
  by_cases h1 : v = .vstr [] ∨ v = .vnull ∨ v = .vundefined
  · have hv : parseValue v (.vnum q) nm = .vnum q := by rw [parseValue, if_pos h1]
    rw [hv, parseValue_vnum]
  · by_cases h2 : (nm = "stopLossUSDT" ∨ nm = "rsiThresholdDown") ∧ v = .vstr ['-']
    · have hv : parseValue v (.vnum q) nm = .vstr ['-'] := by
        rw [parseValue, if_neg h1, if_pos h2]
      rw [hv]
      rw [parseValue, if_neg (by simp), if_pos ⟨h2.1, rfl⟩]
    · cases hj : jsToNumber v with
      | some r =>
        have hv : parseValue v (.vnum q) nm = .vnum r := by
          rw [parseValue, if_neg h1, if_neg h2, hj]
        rw [hv, parseValue_vnum]
      | none =>
        have hv : parseValue v (.vnum q) nm = .vnum q := by
          rw [parseValue, if_neg h1, if_neg h2, hj]
        rw [hv, parseValue_vnum]

/-- A sample per-symbol status entry used by concrete witnesses. -/
def stA : SymbolStatus where
  symbol := str "BTCUSDT"
  state := some (str "ERROR")
  pnl := none
  cumulative_pnl := some 3
  pending_entry_order_id := none
  pending_exit_order_id := none
  last_error := some (str "timeout")

/-- A second sample per-symbol status entry. -/
def stB : SymbolStatus where
  symbol := str "ETHUSDT"
  state := some (str "IN_POSITION")
  pnl := some (1/2)
  cumulative_pnl := none
  pending_entry_order_id := some (str "42")
  pending_exit_order_id := none
  last_error := none

/-- C1: for every poll-outcome sequence `[success(S1), failure, failure,
success(S2)]` the exposed snapshot sequence is `[S1, S1, S1, S2]` and the
state sequence is `[Fresh, Stale, Stale, Fresh]`: a failed tick leaves the
snapshot untouched and sets the error flag, a successful tick replaces the
snapshot and clears the error. -/
theorem c1_poller_sequence (init : List SymbolStatus) (slot : Option (List SymbolStatus))
    (b1 b2 : JSVal) (s1 s2 : List SymbolStatus) (h1 : s1 ≠ []) (h2 : s2 ≠ []) :
    (pollerTrace init (mountPoller init slot)
        [.ok b1 (some s1), .fail, .fail, .ok b2 (some s2)]).map PollerState.statuses
      = [s1, s1, s1, s2] ∧
    (pollerTrace init (mountPoller init slot)
        [.ok b1 (some s1), .fail, .fail, .ok b2 (some s2)]).map pollerMode
      = [.Fresh, .Stale, .Stale, .Fresh] := by
  constructor
  · simp [pollerTrace, fetchData]
  · simp [pollerTrace, fetchData, pollerMode, h1, h2]

/-- Witness for C1 at a concrete cache, snapshot pair and outcome sequence. -/
theorem c1_witness :
    ([stA] : List SymbolStatus) ≠ [] ∧ ([stB] : List SymbolStatus) ≠ [] ∧
    ((pollerTrace [] (mountPoller [] none)
        [.ok (.vbool true) (some [stA]), .fail, .fail,
         .ok (.vbool true) (some [stB])]).map PollerState.statuses
      = [[stA], [stA], [stA], [stB]] ∧
    (pollerTrace [] (mountPoller [] none)
        [.ok (.vbool true) (some [stA]), .fail, .fail,
         .ok (.vbool true) (some [stB])]).map pollerMode
      = [.Fresh, .Stale, .Stale, .Fresh]) :=
  ⟨by decide, by decide,
    c1_poller_sequence [] none (.vbool true) (.vbool true) [stA] [stB]
      (by decide) (by decide)⟩

/-- C2: the fleet belief starts `Unknown` (`null`), the first successful
status fetch reporting `bots_running: true` seeds it to `Running`, and no
poll tick ever writes the belief — in particular a later poll whose body
reports `bots_running: false` leaves it unchanged; among the modelled events
only start/shutdown command outcomes mutate it. -/
theorem c2_seed_once :
    initialBotsRunning = .vnull ∧
    fetchInitialBots (.statusOk (some true)) = .vbool true ∧
    (∀ (init : List SymbolStatus) (s : AppState) (o : PollOutcome),
      (stepApp init s (.poll o)).botsRunning = s.botsRunning) ∧
    (∀ (init : List SymbolStatus) (s : AppState) (sts : Option (List SymbolStatus)),
      (stepApp init s
        (.poll (.ok (.vbool false) sts))).botsRunning = s.botsRunning) := by
  refine ⟨rfl, rfl, ?_, ?_⟩
  · intro init s o
    rfl
  · intro init s sts
    rfl

/-- C4 counterexample: an HTTP 500 shutdown response whose body is not JSON
makes `handleShutdown` return `false` even though the request was sent,
against the claim that every HTTP 500 response yields a `true` flag. -/
theorem c4_counterexample :
    (handleShutdown (.resp 500 none)).1 = .vbool false ∧
    (handleShutdown (.resp 500 none)).2 = false := by
  exact ⟨rfl, rfl⟩

/-- C4 (amended): every shutdown outcome transitions the belief to `Stopped`;
the returned flag is `true` exactly when a response arrived whose body parses
as JSON (any HTTP status, 500 included), and `false` when the request could
not be sent or the response body was not JSON. -/
theorem c4_shutdown_amended :
    (∀ o, (handleShutdown o).1 = .vbool false) ∧
    (∀ st b, (handleShutdown (.resp st (some b))).2 = true) ∧
    (handleShutdown .netFail).2 = false ∧
    (∀ st, (handleShutdown (.resp st none)).2 = false) ∧
    (handleShutdown (.resp 500 (some ⟨none, some "apagando"⟩))).2 = true := by
  refine ⟨?_, ?_, rfl, ?_, rfl⟩
  · intro o
    cases o with
    | netFail => rfl
    | resp st b => cases b <;> rfl
  · intro st b
    rfl
  · intro st
    rfl

/-- C5: a start command that fails in any way — transport failure, non-JSON
body, or a non-2xx response such as a 409 carrying
`{error: "already running"}` — sets the belief to `Stopped` and returns
`false`; only a 2xx JSON response sets `Running` and returns `true`. -/
theorem c5_start_failure :
    (∀ st b, handleStartBots (.resp st (some b)) =
      if respOk st then (.vbool true, true) else (.vbool false, false)) ∧
    handleStartBots .netFail = (.vbool false, false) ∧
    (∀ st, handleStartBots (.resp st none) = (.vbool false, false)) ∧
    handleStartBots (.resp 409 (some ⟨some "already running", none⟩))
      = (.vbool false, false) := by
  refine ⟨?_, rfl, ?_, ?_⟩
  · intro st b
    rfl
  · intro st
    rfl
  · decide

/-- C10 (implicit): every failing initial-load path — config fetch failure,
status fetch throw, or a non-2xx status response — leaves the belief
`Stopped` (`false`) rather than `Unknown`; no initial-load outcome leaves the
belief `null`, and with a `false` belief and no pending action the Start
button is enabled. -/
theorem c10_initial_failure :
    fetchInitialBots .configFail = .vbool false ∧
    fetchInitialBots .statusThrow = .vbool false ∧
    fetchInitialBots .statusNonOk = .vbool false ∧
    (∀ o, fetchInitialBots o ≠ .vnull) ∧
    startDisabled (.vbool false) false = false := by
  refine ⟨rfl, rfl, rfl, ?_, by decide⟩
  intro o
  cases o with
  | configFail => simp [fetchInitialBots]
  | statusThrow => simp [fetchInitialBots]
  | statusNonOk => simp [fetchInitialBots]
  | statusOk b => cases b <;> simp [fetchInitialBots]

/-- C9 counterexample: with an empty mount-time snapshot, after a successful
poll stored `[stA]`, a 2xx tick whose body has no `statuses` array blanks the
exposed snapshot (the `statuses.length === 0` read sees the mount-time value)
and clears the error rather than setting it; only the cache is preserved. -/
theorem c9_counterexample :
    (fetchData [] (fetchData [] (mountPoller [] none)
        (.ok (.vbool true) (some [stA]))) (.ok (.vbool true) none)).statuses = [] ∧
    (fetchData [] (mountPoller [] none)
        (.ok (.vbool true) (some [stA]))).statuses = [stA] ∧
    (fetchData [] (fetchData [] (mountPoller [] none)
        (.ok (.vbool true) (some [stA]))) (.ok (.vbool true) none)).error = none ∧
    (fetchData [] (fetchData [] (mountPoller [] none)
        (.ok (.vbool true) (some [stA]))) (.ok (.vbool true) none)).cache
      = some [stA] := by
  decide

/-- C9 (amended): a 2xx response without a `statuses` array stores no new
data and never overwrites the durable cache, but the tick clears the error
indication instead of setting it, and the snapshot survives only when the
mount-time snapshot was nonempty — when the mount-time snapshot was empty the
tick resets the exposed snapshot to empty. -/
theorem c9_malformed_amended (init : List SymbolStatus) (s : PollerState) (b : JSVal) :
    (fetchData init s (.ok b none)).cache = s.cache ∧
    (fetchData init s (.ok b none)).error = none ∧
    (init ≠ [] → (fetchData init s (.ok b none)).statuses = s.statuses) ∧
    (init = [] → (fetchData init s (.ok b none)).statuses = []) := by
  by_cases hi : init = []
  · subst hi
    exact ⟨rfl, rfl, fun h => absurd rfl h, fun _ => rfl⟩
  · have hlen : ¬(init.length = 0) := by
      simpa [List.length_eq_zero] using hi
    refine ⟨?_, ?_, fun _ => ?_, fun h => absurd h hi⟩ <;>
      simp [fetchData, hlen]

/-- C7 (code bug): editing `stopLossUSDT` to the single character `'-'` is
accepted into the form state, and submitting in that state sends the literal
string `'-'` for the field — `parseValue` maps the dash to itself instead of
a number or the default, so the bare `'-'` is transmitted to the backend. -/
theorem c7_dash_transmitted :
    (handleChange initialConfig "stopLossUSDT" ['-']).stopLossUSDT = .vstr ['-'] ∧
    (configToSend (handleChange initialConfig "stopLossUSDT" ['-'])).stopLossUSDT
      = .vstr ['-'] ∧
    JSVal.vstr ['-'] ≠ initialConfig.stopLossUSDT ∧
    jsToNumber (.vstr ['-']) = none := by
  decide

/-- JavaScript `Number("3.5")` in the model. -/
theorem strToNum_threeFive : strToNum (str "3.5") = some (7/2) := by
  show some (1 * decNum ['3'] ['5']) = some (7/2)
  have h : decNum ['3'] ['5'] = 7/2 := by
    rw [decNum, show natOfDigits ['3'] = 3 from rfl, show natOfDigits ['5'] = 5 from rfl]
    norm_num
  rw [h, one_mul]

/-- C6 counterexample: editing `cycleSleepSeconds` to `"3.5"` stores the
non-integer `3.5` (the below-5 override accepts it), and submitting transmits
`3.5` unchanged — neither `0` nor an integer `≥ 5`, and corrected neither to
the last valid value (`0`) nor to the default. -/
theorem c6_counterexample :
    (handleChange initialConfig "cycleSleepSeconds" (str "3.5")).cycleSleepSeconds
      = .vnum (7/2) ∧
    (configToSend (handleChange initialConfig "cycleSleepSeconds"
        (str "3.5"))).cycleSleepSeconds = .vnum (7/2) ∧
    (7/2 : ℚ) ≠ 0 ∧ (7/2 : ℚ) < 5 ∧ ((7 : ℚ)/2).den ≠ 1 := by
  have h1 : (handleChange initialConfig "cycleSleepSeconds"
      (str "3.5")).cycleSleepSeconds = .vnum (7/2) := by
    show intFieldValue "cycleSleepSeconds" (.vnum 0) (str "3.5") = .vnum (7/2)
    rw [intFieldValue, if_neg (show ¬(str "3.5" = []) by decide)]
    norm_num [strToNum_threeFive]
  refine ⟨h1, ?_, by norm_num, by norm_num, ?_⟩
  · simp only [configToSend]
    rw [h1]
    exact parseValue_vnum (7/2) 0 "cycleSleepSeconds"
  · rw [show ((7 : ℚ)/2).den = 2 by norm_num]
    decide

/-- C8: the submit-time normalization (symbol cleaning plus per-field
`parseValue` coercion) is idempotent — after a submit updates the local state
to the normalized values, submitting again assembles the identical
payload. -/
theorem c8_normalize_idempotent (c : LocalConfig) :
    configToSend (applySubmitState c) = configToSend c := by
  simp only [applySubmitState, configToSend, SendConfig.mk.injEq, and_true, true_and]
  exact ⟨cleanSymbols_idem c.symbolsToTrade,
    parseValue_idem c.rsiPeriod 14 "rsiPeriod",
    parseValue_idem c.rsiThresholdUp 8 "rsiThresholdUp",
    parseValue_idem c.rsiThresholdDown (-8) "rsiThresholdDown",
    parseValue_idem c.rsiEntryLevelLow 25 "rsiEntryLevelLow",
    parseValue_idem c.volumeSmaPeriod 20 "volumeSmaPeriod",
    parseValue_idem c.volumeFactor (3/2) "volumeFactor",
    parseValue_idem c.positionSizeUSDT 50 "positionSizeUSDT",
    parseValue_idem c.stopLossUSDT 20 "stopLossUSDT",
    parseValue_idem c.takeProfitUSDT 30 "takeProfitUSDT",
    parseValue_idem c.cycleSleepSeconds 0 "cycleSleepSeconds",
    parseValue_idem c.orderTimeoutSeconds 60 "orderTimeoutSeconds"⟩

/-- The per-field load rule as the code realizes it: a value that is present
(not absent, `null` or the empty string) and coercible loads as the coerced
number, anything else loads as the named default — except the literal `'-'`
on a dash-permitted field, which is kept as the string `'-'`. -/
def fieldRule (allowDash : Bool) (v : JSVal) (d : ℚ) (out : JSVal) : Prop :=
  (allowDash = true ∧ v = .vstr ['-'] ∧ out = .vstr ['-']) ∨
  (¬(allowDash = true ∧ v = .vstr ['-']) ∧
    (((v = .vstr [] ∨ v = .vnull ∨ v = .vundefined) ∧ out = .vnum d) ∨
     (¬(v = .vstr [] ∨ v = .vnull ∨ v = .vundefined) ∧
       ((∃ q, jsToNumber v = some q ∧ out = .vnum q) ∨
        (jsToNumber v = none ∧ out = .vnum d)))))

/-- The `remote || default` rule for the string-typed fields: a present
nonempty remote string is kept, an absent or empty one falls back to
the default. -/
def strRule (v : Option (List Char)) (d out : List Char) : Prop :=
  (∃ s, v = some s ∧ s ≠ [] ∧ out = s) ∨ ((v = none ∨ v = some []) ∧ out = d)

/-- `parseValue` satisfies the per-field rule with the dash flag matching its
name check. -/
theorem parseValue_fieldRule (allowDash : Bool) (v : JSVal) (d : ℚ) (nm : String)
    (hd : allowDash = true ↔ (nm = "stopLossUSDT" ∨ nm = "rsiThresholdDown")) :
    fieldRule allowDash v d (parseValue v (.vnum d) nm) := by
  by_cases h1 : v = .vstr [] ∨ v = .vnull ∨ v = .vundefined
  · right
    constructor
    · rintro ⟨_, hv⟩
      rcases h1 with h | h | h <;> rw [hv] at h <;> simp at h
    · exact Or.inl ⟨h1, by rw [parseValue, if_pos h1]⟩
  · by_cases h2 : (nm = "stopLossUSDT" ∨ nm = "rsiThresholdDown") ∧ v = .vstr ['-']
    · exact Or.inl ⟨hd.mpr h2.1, h2.2, by rw [parseValue, if_neg h1, if_pos h2]⟩
    · right
      refine ⟨fun hc => h2 ⟨hd.mp hc.1, hc.2⟩, Or.inr ⟨h1, ?_⟩⟩
      cases hj : jsToNumber v with
      | some q => exact Or.inl ⟨q, rfl, by rw [parseValue, if_neg h1, if_neg h2, hj]⟩
      | none => exact Or.inr ⟨rfl, by rw [parseValue, if_neg h1, if_neg h2, hj]⟩

/-- `strOr` satisfies the string-field rule. -/
theorem strOr_rule (v : Option (List Char)) (d : List Char) : strRule v d (strOr v d) := by
  cases v with
  | none => exact Or.inr ⟨Or.inl rfl, rfl⟩
  | some s =>
    by_cases h : s.isEmpty
    · refine Or.inr ⟨Or.inr ?_, by rw [strOr, if_pos h]⟩
      rw [List.isEmpty_iff] at h
      rw [h]
    · refine Or.inl ⟨s, rfl, ?_, by rw [strOr, if_neg h]⟩
      rw [List.isEmpty_iff] at h
      exact h

/-- `parseValue` never produces `undefined`. -/
theorem parseValue_ne_undef (v : JSVal) (d : ℚ) (nm : String) :
    parseValue v (.vnum d) nm ≠ .vundefined := by
  by_cases h1 : v = .vstr [] ∨ v = .vnull ∨ v = .vundefined
  · rw [parseValue, if_pos h1]
    simp
  · by_cases h2 : (nm = "stopLossUSDT" ∨ nm = "rsiThresholdDown") ∧ v = .vstr ['-']
    · rw [parseValue, if_neg h1, if_pos h2]
      simp
    · cases hj : jsToNumber v with
      | some q =>
        rw [parseValue, if_neg h1, if_neg h2, hj]
        simp
      | none =>
        rw [parseValue, if_neg h1, if_neg h2, hj]
        simp

/-- A remote config body whose `TRADING.stop_loss_usdt` holds the literal
string `"-"` and whose other fields are absent. -/
def rcDash : RemoteConfig where
  api_key := none
  api_secret := none
  mode := none
  symbols_to_trade := none
  rsi_interval := none
  rsi_period := .vundefined
  rsi_threshold_up := .vundefined
  rsi_threshold_down := .vundefined
  rsi_entry_level_low := .vundefined
  volume_sma_period := .vundefined
  volume_factor := .vundefined
  position_size_usdt := .vundefined
  stop_loss_usdt := .vstr ['-']
  take_profit_usdt := .vundefined
  cycle_sleep_seconds := .vundefined
  order_timeout_seconds := .vundefined

/-- C3 counterexample: loading a remote config whose `stop_loss_usdt` is the
literal string `"-"` keeps the non-coercible `'-'` in the form state instead
of falling back to the documented default `20`. -/
theorem c3_counterexample :
    (fetchConfigOk rcDash false).stopLossUSDT = .vstr ['-'] ∧
    (fetchConfigOk rcDash false).stopLossUSDT ≠ .vnum 20 ∧
    initialConfig.stopLossUSDT = .vnum 20 ∧
    jsToNumber (.vstr ['-']) = none := by
  decide

/-- C3 (amended): the load applies the fallback independently per field —
every numeric field is the coerced remote value when present and coercible
and the documented default otherwise, except that the literal `'-'` for
`stopLossUSDT`/`rsiThresholdDown` is kept as `'-'`; every string field is the
remote value when nonempty and the default otherwise; and no numeric field is
ever `undefined`. -/
theorem c3_load_per_field (rc : RemoteConfig) (a : Bool) :
    fieldRule false rc.rsi_period 14 ((fetchConfigOk rc a).rsiPeriod) ∧
    fieldRule false rc.rsi_threshold_up 8 ((fetchConfigOk rc a).rsiThresholdUp) ∧
    fieldRule true rc.rsi_threshold_down (-8) ((fetchConfigOk rc a).rsiThresholdDown) ∧
    fieldRule false rc.rsi_entry_level_low 25 ((fetchConfigOk rc a).rsiEntryLevelLow) ∧
    fieldRule false rc.volume_sma_period 20 ((fetchConfigOk rc a).volumeSmaPeriod) ∧
    fieldRule false rc.volume_factor (3/2) ((fetchConfigOk rc a).volumeFactor) ∧
    fieldRule false rc.position_size_usdt 50 ((fetchConfigOk rc a).positionSizeUSDT) ∧
    fieldRule true rc.stop_loss_usdt 20 ((fetchConfigOk rc a).stopLossUSDT) ∧
    fieldRule false rc.take_profit_usdt 30 ((fetchConfigOk rc a).takeProfitUSDT) ∧
    fieldRule false rc.cycle_sleep_seconds 0 ((fetchConfigOk rc a).cycleSleepSeconds) ∧
    fieldRule false rc.order_timeout_seconds 60 ((fetchConfigOk rc a).orderTimeoutSeconds) ∧
    strRule rc.api_key [] ((fetchConfigOk rc a).apiKey) ∧
    strRule rc.api_secret [] ((fetchConfigOk rc a).apiSecret) ∧
    strRule rc.mode (str "paper") ((fetchConfigOk rc a).mode) ∧
    strRule rc.symbols_to_trade [] ((fetchConfigOk rc a).symbolsToTrade) ∧
    strRule rc.rsi_interval (str "5m") ((fetchConfigOk rc a).rsiInterval) ∧
    (∀ v ∈ [(fetchConfigOk rc a).rsiPeriod, (fetchConfigOk rc a).rsiThresholdUp,
        (fetchConfigOk rc a).rsiThresholdDown, (fetchConfigOk rc a).rsiEntryLevelLow,
        (fetchConfigOk rc a).volumeSmaPeriod, (fetchConfigOk rc a).volumeFactor,
        (fetchConfigOk rc a).positionSizeUSDT, (fetchConfigOk rc a).stopLossUSDT,
        (fetchConfigOk rc a).takeProfitUSDT, (fetchConfigOk rc a).cycleSleepSeconds,
        (fetchConfigOk rc a).orderTimeoutSeconds], v ≠ .vundefined) := by
  refine ⟨parseValue_fieldRule false _ _ _ (by decide),
    parseValue_fieldRule false _ _ _ (by decide),
    parseValue_fieldRule true _ _ _ (by decide),
    parseValue_fieldRule false _ _ _ (by decide),
    parseValue_fieldRule false _ _ _ (by decide),
    parseValue_fieldRule false _ _ _ (by decide),
    parseValue_fieldRule false _ _ _ (by decide),
    parseValue_fieldRule true _ _ _ (by decide),
    parseValue_fieldRule false _ _ _ (by decide),
    parseValue_fieldRule false _ _ _ (by decide),
    parseValue_fieldRule false _ _ _ (by decide),
    strOr_rule _ _, strOr_rule _ _, strOr_rule _ _, strOr_rule _ _, strOr_rule _ _, ?_⟩
  intro v hv
  simp only [List.mem_cons, List.not_mem_nil, or_false] at hv
  rcases hv with rfl | rfl | rfl | rfl | rfl | rfl | rfl | rfl | rfl | rfl | rfl <;>
    exact parseValue_ne_undef _ _ _

/-- Read a numeric payload field of `configToSend` by its input name. -/
def getSendNumField (p : SendConfig) : String → JSVal
  | "rsiPeriod" => p.rsiPeriod
  | "rsiThresholdUp" => p.rsiThresholdUp
  | "rsiThresholdDown" => p.rsiThresholdDown
  | "rsiEntryLevelLow" => p.rsiEntryLevelLow
  | "volumeSmaPeriod" => p.volumeSmaPeriod
  | "volumeFactor" => p.volumeFactor
  | "positionSizeUSDT" => p.positionSizeUSDT
  | "stopLossUSDT" => p.stopLossUSDT
  | "takeProfitUSDT" => p.takeProfitUSDT
  | "cycleSleepSeconds" => p.cycleSleepSeconds
  | "orderTimeoutSeconds" => p.orderTimeoutSeconds
  | _ => .vundefined

/-- The eleven numeric fields with their dash permission and `initialConfig`
default, as `configToSend` coerces them. -/
def sendFieldTable : List (String × Bool × ℚ) :=
  [("rsiPeriod", false, 14), ("rsiThresholdUp", false, 8),
   ("rsiThresholdDown", true, -8), ("rsiEntryLevelLow", false, 25),
   ("volumeSmaPeriod", false, 20), ("volumeFactor", false, 3/2),
   ("positionSizeUSDT", false, 50), ("stopLossUSDT", true, 20),
   ("takeProfitUSDT", false, 30), ("cycleSleepSeconds", false, 0),
   ("orderTimeoutSeconds", false, 60)]

/-- C6 (amended): the integer fields enforce no floor — on edit `rsiPeriod`,
`volumeSmaPeriod` and `orderTimeoutSeconds` accept any integer (including
zero and negatives) while a non-integer or non-numeric input reverts to the
previous value, and `cycleSleepSeconds` additionally accepts any nonzero
number below 5 (reverting for non-integers at or above 5 and for
non-numerics); on submit every numeric field is transmitted unchanged through
`parseValue` (floor violations are only logged) and the default replaces only
empty or non-numeric values, per the field table. -/
theorem c6_edit_floor_amended :
    (∀ nm ∈ ["rsiPeriod", "volumeSmaPeriod", "orderTimeoutSeconds"],
      ∀ (c : LocalConfig) (v : List Char) (q : ℚ), v ≠ [] → strToNum v = some q →
        q.den = 1 → getNumField (handleChange c nm v) nm = .vnum q) ∧
    (∀ (c : LocalConfig) (v : List Char) (q : ℚ), v ≠ [] → strToNum v = some q →
      q ≠ 0 → q < 5 →
      (handleChange c "cycleSleepSeconds" v).cycleSleepSeconds = .vnum q) ∧
    (∀ nm ∈ ["rsiPeriod", "volumeSmaPeriod", "orderTimeoutSeconds"],
      ∀ (c : LocalConfig) (v : List Char) (q : ℚ), v ≠ [] → strToNum v = some q →
        q.den ≠ 1 → getNumField (handleChange c nm v) nm = getNumField c nm) ∧
    (∀ (c : LocalConfig) (v : List Char) (q : ℚ), v ≠ [] → strToNum v = some q →
      q.den ≠ 1 → 5 ≤ q →
      (handleChange c "cycleSleepSeconds" v).cycleSleepSeconds = c.cycleSleepSeconds) ∧
    (∀ nm ∈ integerNumberFields, ∀ (c : LocalConfig) (v : List Char), v ≠ [] →
      strToNum v = none → getNumField (handleChange c nm v) nm = getNumField c nm) ∧
    (∀ (c : LocalConfig) (q : ℚ), c.rsiPeriod = .vnum q →
      (configToSend c).rsiPeriod = .vnum q) ∧
    (∀ (c : LocalConfig) (q : ℚ), c.cycleSleepSeconds = .vnum q →
      (configToSend c).cycleSleepSeconds = .vnum q) ∧
    (∀ nm dash d, (nm, dash, d) ∈ sendFieldTable → ∀ (c : LocalConfig),
      fieldRule dash (getNumField c nm) d (getSendNumField (configToSend c) nm)) := by
  refine ⟨?_, ?_, ?_, ?_, ?_, ?_, ?_, ?_⟩
  · intro nm hnm c v q hv hq hden
    simp only [List.mem_cons, List.not_mem_nil, or_false] at hnm
    rcases hnm with rfl | rfl | rfl <;>
      simp [handleChange, numericTextFields, integerNumberFields, setNumField,
        getNumField, intFieldValue, hv, hq, hden]
  · intro c v q hv hq h0 h5
    simp [handleChange, numericTextFields, integerNumberFields, setNumField,
      intFieldValue, hv, hq, h0, h5]
  · intro nm hnm c v q hv hq hden
    simp only [List.mem_cons, List.not_mem_nil, or_false] at hnm
    rcases hnm with rfl | rfl | rfl <;>
      simp [handleChange, numericTextFields, integerNumberFields, setNumField,
        getNumField, intFieldValue, hv, hq, hden]
  · intro c v q hv hq hden h5
    simp [handleChange, numericTextFields, integerNumberFields, setNumField,
      getNumField, intFieldValue, hv, hq, hden, not_lt.mpr h5]
  · intro nm hnm c v hv hq
    simp only [integerNumberFields, List.mem_cons, List.not_mem_nil, or_false] at hnm
    rcases hnm with rfl | rfl | rfl | rfl <;>
      simp [handleChange, numericTextFields, integerNumberFields, setNumField,
        getNumField, intFieldValue, hv, hq]
  · intro c q h
    simp only [configToSend, h]
    exact parseValue_vnum q 14 "rsiPeriod"
  · intro c q h
    simp only [configToSend, h]
    exact parseValue_vnum q 0 "cycleSleepSeconds"
  · intro nm dash d hmem c
    simp only [sendFieldTable, List.mem_cons, List.not_mem_nil, or_false,
      Prod.mk.injEq] at hmem
    rcases hmem with h | h | h | h | h | h | h | h | h | h | h <;>
      obtain ⟨rfl, rfl, rfl⟩ := h <;>
        exact parseValue_fieldRule _ _ _ _ (by decide)
